import Mathlib

/-!
Shallow embedding of the AI-Chatbot chat client: the chat-state
synchronization logic of the two `ChatApp` component versions in
`src/components/chat/ChatApp.tsx`, the `sendMessage` webhook utility in
`src/pages/api/sendMessage.ts`, and the submit guard of
`src/components/chat/ChatView.tsx`.

Modelling conventions:
- React state setters become pure state transformations on an `AppState`
  record holding `activeChat`, `chats`, `messages`.
- Each network call is abstracted by an `outcome` parameter supplied by the
  environment (`Except Unit r` for "resolved with response r / rejected"),
  and the fact that the request was issued is recorded as an event in the
  returned trace, together with toasts and optimistic appends, preserving
  their program order.
- JavaScript truthiness is modelled faithfully: `!x` on a `string | null`
  value is true for both `null` and the empty string (`falsyOptStr`), and
  `x || null` maps the empty string to `null` (`jsOrNull`).
- Toasts are identified by their title; styling options are cosmetic and
  not modelled.
- `Date.now()` and `new Date().toISOString()` become explicit `now` /
  `nowIso` parameters.
-/

/-- Local chat record (interface `Chat` in ChatApp.tsx). `lastMessage` is
optional, matching the `lastMessage?: string` field. -/
structure Chat where
  id : String
  title : String
  lastMessage : Option String
  updatedAt : String
deriving DecidableEq

/-- Local message role (the `'user' | 'bot'` union in ChatApp.tsx). -/
inductive Role where
  | user
  | bot
deriving DecidableEq

/-- Local message record (interface `Message` in ChatApp.tsx). -/
structure Message where
  id : String
  content : String
  role : Role
  timestamp : String
  isBot : Bool
deriving DecidableEq

/-- The component state relevant to the claims: the three `useState` cells
`activeChat`, `chats`, `messages` of `ChatApp`. -/
structure AppState where
  activeChat : Option String
  chats : List Chat
  messages : List Message
deriving DecidableEq

/-- One element of the `messages(limit: 1)` sub-array of a server chat. -/
structure ServerChatMsg where
  content : String
deriving DecidableEq

/-- One server chat row of `GetChatsResponse`. -/
structure ServerChat where
  id : String
  title : String
  created_at : String
  messages : List ServerChatMsg
deriving DecidableEq

/-- Server-side message role (the `'user' | 'assistant'` union of
`GetMessagesResponse`). -/
inductive ServerRole where
  | user
  | assistant
deriving DecidableEq

/-- One server message row of `GetMessagesResponse`. -/
structure ServerMessage where
  id : String
  content : String
  role : ServerRole
  created_at : String
deriving DecidableEq

/-- The `insert_chats_one` payload of `CreateChatResponse`. -/
structure CreatedChat where
  id : String
  title : String
  created_at : String
deriving DecidableEq

/-- JavaScript truthiness test `!x` for a `string | null` value: true for
`null` and for the empty string. -/
def falsyOptStr : Option String → Bool
  | none => true
  | some s => s == ""

/-- JavaScript `x || null` for `x : string | undefined`: the empty string is
falsy and collapses to `null`. -/
def jsOrNull : Option String → Option String
  | none => none
  | some s => if s == "" then none else some s

/-- JavaScript `s.toLowerCase()`, modelled on the character sequence of the
string (ASCII letters are mapped to lower case). -/
def jsToLower (s : String) : List Char :=
  s.data.map Char.toLower

/-- JavaScript `s.trim()`: whitespace is stripped from both ends. -/
def jsTrim (s : String) : String :=
  String.mk
    (((s.data.dropWhile Char.isWhitespace).reverse.dropWhile
        Char.isWhitespace).reverse)

/-- A network request issued by the component, identified by the GraphQL
operation (or webhook) and its variables. -/
inductive Req where
  | getChats (userId : String)
  | getMessages (chatId : String)
  | createChat (userId : String) (title : String)
  | deleteChat (id : String)
  | renameChat (id : String) (title : String)
  | webhook (chatId : String) (content : String) (userId : String)
deriving DecidableEq

/-- An observable effect of an operation, in program order: a request sent,
a toast shown (by title), or an optimistic `setMessages` append. -/
inductive Ev where
  | request (r : Req)
  | toast (title : String)
  | appendMessage (m : Message)
deriving DecidableEq

/-- The element-wise mapping applied by `fetchChats` to each server chat:
`lastMessage` is the content of the first element of the server chat's
`messages` array (`chat.messages[0]?.content`), `updatedAt` its
`created_at`. -/
def mapServerChat (c : ServerChat) : Chat :=
  { id := c.id
    title := c.title
    lastMessage := c.messages.head?.map (fun m => m.content)
    updatedAt := c.created_at }

/-- The element-wise mapping applied by `fetchMessages` to each server
message: the role `'assistant'` becomes `'bot'` (otherwise the server role,
which can only be `'user'`, is kept), and `isBot` records whether the server
role was `'assistant'`. -/
def mapServerMessage (m : ServerMessage) : Message :=
  { id := m.id
    content := m.content
    role := match m.role with
      | ServerRole.assistant => Role.bot
      | ServerRole.user => Role.user
    timestamp := m.created_at
    isBot := m.role == ServerRole.assistant }

namespace V2

/-- The `fetchChats` handler of the second ChatApp version (ChatApp.tsx,
second copy): on success it replaces `chats` with the mapped server rows and,
when the list is non-empty and `activeChat` is falsy, selects the first
fetched chat; on failure it shows a destructive toast and leaves state
unchanged. -/
def fetchChats (userId : String) (s : AppState)
    (outcome : Except Unit (List ServerChat)) : AppState × List Ev :=
  match outcome with
  | Except.ok data =>
    let fetchedChats := data.map mapServerChat
    let s1 := { s with chats := fetchedChats }
    let s2 :=
      match fetchedChats.head?, falsyOptStr s.activeChat with
      | some c, true => { s1 with activeChat := some c.id }
      | _, _ => s1
    (s2, [Ev.request (Req.getChats userId)])
  | Except.error _ =>
    (s, [Ev.request (Req.getChats userId), Ev.toast "Failed to fetch chats"])

/-- The `fetchMessages` handler of the second ChatApp version: on success it
replaces `messages` with the mapped server rows; on failure it shows a
destructive toast and leaves state unchanged. -/
def fetchMessages (s : AppState) (chatId : String)
    (outcome : Except Unit (List ServerMessage)) : AppState × List Ev :=
  match outcome with
  | Except.ok data =>
    ({ s with messages := data.map mapServerMessage },
     [Ev.request (Req.getMessages chatId)])
  | Except.error _ =>
    (s, [Ev.request (Req.getMessages chatId), Ev.toast "Failed to fetch messages"])

/-- The `handleNewChat` handler of the second ChatApp version: on success it
prepends the created chat, selects it and clears `messages`; on failure it
shows a destructive toast and leaves state unchanged. -/
def handleNewChat (userId : String) (s : AppState)
    (outcome : Except Unit CreatedChat) : AppState × List Ev :=
  match outcome with
  | Except.ok d =>
    let newChat : Chat :=
      { id := d.id, title := d.title, lastMessage := none, updatedAt := d.created_at }
    ({ activeChat := some newChat.id
       chats := newChat :: s.chats
       messages := [] },
     [Ev.request (Req.createChat userId "New Chat"), Ev.toast "New chat created"])
  | Except.error _ =>
    (s, [Ev.request (Req.createChat userId "New Chat"), Ev.toast "Failed to create chat"])

/-- The `handleDeleteChat` handler of the second ChatApp version. It returns
silently when no chat with the id is found or the confirm dialog is
declined; on a successful request it filters the chat out and, when the
deleted chat was active, re-selects `updatedChats[0]?.id || null`; on
failure it shows a destructive toast and leaves state unchanged. -/
def handleDeleteChat (s : AppState) (chatId : String) (confirmed : Bool)
    (outcome : Except Unit Unit) : AppState × List Ev :=
  match s.chats.find? (fun c => c.id == chatId) with
  | none => (s, [])
  | some _ =>
    if !confirmed then (s, [])
    else
      match outcome with
      | Except.ok _ =>
        let updatedChats := s.chats.filter (fun c => !(c.id == chatId))
        let newActive :=
          if s.activeChat == some chatId then
            jsOrNull (updatedChats.head?.map (fun c => c.id))
          else s.activeChat
        ({ s with chats := updatedChats, activeChat := newActive },
         [Ev.request (Req.deleteChat chatId), Ev.toast "Chat deleted"])
      | Except.error _ =>
        (s, [Ev.request (Req.deleteChat chatId), Ev.toast "Failed to delete chat"])

/-- The `handleRenameChat` handler of the second ChatApp version: on success
it rewrites the title of every chat whose id matches; on failure it shows a
destructive toast and leaves state unchanged. -/
def handleRenameChat (s : AppState) (chatId : String) (newTitle : String)
    (outcome : Except Unit Unit) : AppState × List Ev :=
  match outcome with
  | Except.ok _ =>
    let renamed := s.chats.map
      (fun c => if c.id == chatId then { c with title := newTitle } else c)
    ({ s with chats := renamed },
     [Ev.request (Req.renameChat chatId newTitle), Ev.toast "Chat renamed successfully"])
  | Except.error _ =>
    (s, [Ev.request (Req.renameChat chatId newTitle), Ev.toast "Failed to rename chat"])

/-- The `handleChatSelect` handler of the second ChatApp version. -/
def handleChatSelect (s : AppState) (chatId : String) : AppState :=
  { s with activeChat := some chatId }

/-- The `handleSendMessage` handler of the second ChatApp version: it
returns at once when `activeChat` is falsy; otherwise it appends an
optimistic user message with a `temp-` id, calls the webhook, and on success
re-fetches messages (with its own outcome) while on failure it only shows a
destructive toast, never removing the appended message. -/
def handleSendMessage (s : AppState) (userId : String) (content : String)
    (now : Nat) (nowIso : String) (sendOutcome : Except Unit Unit)
    (fetchOutcome : Except Unit (List ServerMessage)) : AppState × List Ev :=
  match s.activeChat with
  | none => (s, [])
  | some chatId =>
    if chatId == "" then (s, [])
    else
      let userMessage : Message :=
        { id := "temp-" ++ toString now
          content := content
          role := Role.user
          timestamp := nowIso
          isBot := false }
      let s1 := { s with messages := s.messages ++ [userMessage] }
      match sendOutcome with
      | Except.ok _ =>
        let r := fetchMessages s1 chatId fetchOutcome
        (r.1, Ev.appendMessage userMessage ::
              Ev.request (Req.webhook chatId content userId) :: r.2)
      | Except.error _ =>
        (s1, [Ev.appendMessage userMessage,
              Ev.request (Req.webhook chatId content userId),
              Ev.toast "Failed to send message"])

/-- The derived `filteredChats` value of the second ChatApp version:
`chats.filter(chat => chat.title.toLowerCase().includes(searchTerm.toLowerCase()))`,
with `includes` as contiguous-substring containment. -/
def filteredChats (chats : List Chat) (searchTerm : String) : List Chat :=
  chats.filter (fun chat =>
    decide (jsToLower searchTerm <:+: jsToLower chat.title))

/-- The state-changing operations the second ChatApp version defines and
wires into its children (ChatSidebar and ChatView props plus the mount
effects). -/
def stateChangingOps : List String :=
  ["fetchChats", "fetchMessages", "handleNewChat", "handleChatSelect",
   "handleSendMessage", "handleDeleteChat", "handleRenameChat"]

end V2

namespace V1

/-- The `fetchChats` handler of the first ChatApp version (ChatApp.tsx,
first copy): same synchronization logic as the second version, only the
failure toast styling differs. -/
def fetchChats (userId : String) (s : AppState)
    (outcome : Except Unit (List ServerChat)) : AppState × List Ev :=
  match outcome with
  | Except.ok data =>
    let fetchedChats := data.map mapServerChat
    let s1 := { s with chats := fetchedChats }
    let s2 :=
      match fetchedChats.head?, falsyOptStr s.activeChat with
      | some c, true => { s1 with activeChat := some c.id }
      | _, _ => s1
    (s2, [Ev.request (Req.getChats userId)])
  | Except.error _ =>
    (s, [Ev.request (Req.getChats userId), Ev.toast "Failed to fetch chats"])

/-- The `fetchMessages` handler of the first ChatApp version: identical
state logic to the second version (it additionally scrolls, which is not
state). -/
def fetchMessages (s : AppState) (chatId : String)
    (outcome : Except Unit (List ServerMessage)) : AppState × List Ev :=
  match outcome with
  | Except.ok data =>
    ({ s with messages := data.map mapServerMessage },
     [Ev.request (Req.getMessages chatId)])
  | Except.error _ =>
    (s, [Ev.request (Req.getMessages chatId), Ev.toast "Failed to fetch messages"])

/-- The `handleNewChat` handler of the first ChatApp version: identical
state logic to the second version. -/
def handleNewChat (userId : String) (s : AppState)
    (outcome : Except Unit CreatedChat) : AppState × List Ev :=
  match outcome with
  | Except.ok d =>
    let newChat : Chat :=
      { id := d.id, title := d.title, lastMessage := none, updatedAt := d.created_at }
    ({ activeChat := some newChat.id
       chats := newChat :: s.chats
       messages := [] },
     [Ev.request (Req.createChat userId "New Chat"), Ev.toast "New chat created"])
  | Except.error _ =>
    (s, [Ev.request (Req.createChat userId "New Chat"), Ev.toast "Failed to create chat"])

/-- The `handleChatSelect` handler of the first ChatApp version. -/
def handleChatSelect (s : AppState) (chatId : String) : AppState :=
  { s with activeChat := some chatId }

/-- The `handleSendMessage` handler of the first ChatApp version: identical
state logic to the second version. -/
def handleSendMessage (s : AppState) (userId : String) (content : String)
    (now : Nat) (nowIso : String) (sendOutcome : Except Unit Unit)
    (fetchOutcome : Except Unit (List ServerMessage)) : AppState × List Ev :=
  match s.activeChat with
  | none => (s, [])
  | some chatId =>
    if chatId == "" then (s, [])
    else
      let userMessage : Message :=
        { id := "temp-" ++ toString now
          content := content
          role := Role.user
          timestamp := nowIso
          isBot := false }
      let s1 := { s with messages := s.messages ++ [userMessage] }
      match sendOutcome with
      | Except.ok _ =>
        let r := fetchMessages s1 chatId fetchOutcome
        (r.1, Ev.appendMessage userMessage ::
              Ev.request (Req.webhook chatId content userId) :: r.2)
      | Except.error _ =>
        (s1, [Ev.appendMessage userMessage,
              Ev.request (Req.webhook chatId content userId),
              Ev.toast "Failed to send message"])

/-- The derived `filteredChats` value of the first ChatApp version,
identical to the second. -/
def filteredChats (chats : List Chat) (searchTerm : String) : List Chat :=
  chats.filter (fun chat =>
    decide (jsToLower searchTerm <:+: jsToLower chat.title))

/-- The state-changing operations the first ChatApp version defines and
wires into its children: it has no delete or rename handler. -/
def stateChangingOps : List String :=
  ["fetchChats", "fetchMessages", "handleNewChat", "handleChatSelect",
   "handleSendMessage"]

end V1

/-- Input of the `sendMessage` webhook utility
(`src/pages/api/sendMessage.ts`). -/
structure SendMessageParams where
  chatId : String
  content : String
  userId : String
deriving DecidableEq

/-- Environment outcome of one `fetch` call: the promise rejects
(network error) or resolves with a response carrying an `ok` flag, a status
code and a parsed JSON body (abstracted as a value of type J). -/
inductive FetchOutcome (J : Type) where
  | networkError
  | response (ok : Bool) (status : Nat) (body : J)
deriving DecidableEq

/-- The `sendMessage` utility of sendMessage.ts: it performs a single POST
to the n8n webhook and, recording each request issued in the first
component, returns the parsed body when the response was ok and otherwise
throws the error produced by the catch block. No retry is attempted. -/
def sendMessage (J : Type) (p : SendMessageParams) (outcome : FetchOutcome J) :
    List SendMessageParams × Except String J :=
  match outcome with
  | FetchOutcome.networkError => ([p], Except.error "Failed to call n8n webhook")
  | FetchOutcome.response ok _ body =>
    if ok then ([p], Except.ok body)
    else ([p], Except.error "Failed to call n8n webhook")

namespace ChatView

/-- The local state of ChatView used by its submit handler: the controlled
input value and the in-flight flag. -/
structure SubmitState where
  inputValue : String
  isLoading : Bool
deriving DecidableEq

/-- The `handleSubmit` handler of ChatView.tsx up to the `onSendMessage`
call: it returns without sending when the trimmed input is falsy, a send is
in flight, or `chatId` is falsy; otherwise it clears the input, sets the
loading flag and passes the trimmed input to `onSendMessage` (returned as
the second component). -/
def handleSubmit (st : SubmitState) (chatId : Option String) :
    SubmitState × Option String :=
  if jsTrim st.inputValue == "" || st.isLoading || falsyOptStr chatId then
    (st, none)
  else
    ({ inputValue := "", isLoading := true }, some (jsTrim st.inputValue))

end ChatView

/-! Helper lemmas shared by the claim theorems. -/

/-- On success, fetchChats stores exactly the image of the server rows under
mapServerChat, whatever branch the active-chat re-selection takes. -/
theorem fetchChats_ok_chats (userId : String) (s : AppState) (data : List ServerChat) :
    (V2.fetchChats userId s (Except.ok data)).1.chats = data.map mapServerChat := by
  simp only [V2.fetchChats]
  split <;> rfl

/-- On a confirmed, successful deletion, the stored chats are the filter of
the previous chats on a different id. -/
theorem deleteChat_ok_chats (s : AppState) (chatId : String) (ch : Chat)
    (hfind : s.chats.find? (fun c => c.id == chatId) = some ch) :
    (V2.handleDeleteChat s chatId true (Except.ok ())).1.chats =
      s.chats.filter (fun c => !(c.id == chatId)) := by
  simp [V2.handleDeleteChat, hfind]

/-- Claim C1: after every successful fetchChats the local chats state is
exactly the element-wise image of the server response — same length, and at
every index the local chat has the server chat's id and title, lastMessage
the content of the first element of its messages array (none when that
array is empty), and updatedAt the server chat's created_at; hence no chats
are added, dropped or reordered relative to the server response. -/
theorem fetchChats_success_syncs_chats (userId : String) (s : AppState)
    (data : List ServerChat) :
    (V2.fetchChats userId s (Except.ok data)).1.chats.length = data.length ∧
    ∀ i : Nat, (V2.fetchChats userId s (Except.ok data)).1.chats[i]? =
      (data[i]?).map (fun c =>
        ({ id := c.id, title := c.title,
           lastMessage := c.messages.head?.map (fun m => m.content),
           updatedAt := c.created_at } : Chat)) := by
  rw [fetchChats_ok_chats]
  constructor
  · exact List.length_map data mapServerChat
  · intro i
    rw [List.getElem?_map]
    rfl

/-- Claim C2: when the underlying request of fetchChats, fetchMessages,
handleNewChat, handleDeleteChat or handleRenameChat rejects, the operation
emits an error toast and leaves activeChat, chats and messages exactly as
they were. The first four hold for every state; for handleDeleteChat the
request is only ever issued when the chat was found and the dialog
confirmed, so its conjunct carries exactly that hypothesis. -/
theorem error_paths_leave_state_unchanged (userId chatId newTitle : String)
    (s : AppState) :
    ((V2.fetchChats userId s (Except.error ())).1 = s ∧
      Ev.toast "Failed to fetch chats" ∈ (V2.fetchChats userId s (Except.error ())).2) ∧
    ((V2.fetchMessages s chatId (Except.error ())).1 = s ∧
      Ev.toast "Failed to fetch messages" ∈ (V2.fetchMessages s chatId (Except.error ())).2) ∧
    ((V2.handleNewChat userId s (Except.error ())).1 = s ∧
      Ev.toast "Failed to create chat" ∈ (V2.handleNewChat userId s (Except.error ())).2) ∧
    (∀ ch : Chat, s.chats.find? (fun c => c.id == chatId) = some ch →
      ((V2.handleDeleteChat s chatId true (Except.error ())).1 = s ∧
        Ev.toast "Failed to delete chat" ∈
          (V2.handleDeleteChat s chatId true (Except.error ())).2)) ∧
    ((V2.handleRenameChat s chatId newTitle (Except.error ())).1 = s ∧
      Ev.toast "Failed to rename chat" ∈ (V2.handleRenameChat s chatId newTitle (Except.error ())).2) := by
  refine ⟨⟨rfl, ?_⟩, ⟨rfl, ?_⟩, ⟨rfl, ?_⟩, fun ch hfind => ⟨?_, ?_⟩, ⟨rfl, ?_⟩⟩ <;>
    first
    | simp [V2.fetchChats, V2.fetchMessages, V2.handleNewChat, V2.handleRenameChat]
    | simp [V2.handleDeleteChat, hfind]

/-- Witness for claim C2 at a concrete state holding one chat: the failed
deletion leaves the state untouched and toasts the failure. -/
theorem error_paths_leave_state_unchanged_witness :
    (V2.handleDeleteChat ⟨some "a", [⟨"a", "A", none, "d"⟩], []⟩ "a" true
        (Except.error ())).1 = ⟨some "a", [⟨"a", "A", none, "d"⟩], []⟩ ∧
    Ev.toast "Failed to delete chat" ∈
      (V2.handleDeleteChat ⟨some "a", [⟨"a", "A", none, "d"⟩], []⟩ "a" true
        (Except.error ())).2 :=
  (error_paths_leave_state_unchanged "u" "a" "T"
      ⟨some "a", [⟨"a", "A", none, "d"⟩], []⟩).2.2.2.1 ⟨"a", "A", none, "d"⟩ rfl

/-- Claim C3 counterexample: with activeChat equal to the empty string —
which is non-null — handleSendMessage returns immediately because the guard
tests JavaScript truthiness, not nullness: no user message is appended and
no webhook request is issued, contradicting the claim that a user message
is appended before the webhook call whenever activeChat is non-null. -/
theorem handleSendMessage_truthiness_counterexample :
    (⟨some "", [], []⟩ : AppState).activeChat ≠ none ∧
    V2.handleSendMessage ⟨some "", [], []⟩ "u1" "hi" 0 "t0" (Except.error ())
        (Except.ok []) = (⟨some "", [], []⟩, []) :=
  ⟨by simp, rfl⟩

/-- Claim C3 (amended): for every call to handleSendMessage while activeChat
is truthy (non-null and not the empty string), a user message with the given
content, role user, isBot false and a temp- id is appended to the messages
list, the append preceding the webhook request in the event trace; when the
webhook call fails the final messages list still ends with that appended
message — there is no rollback of the optimistic append. -/
theorem handleSendMessage_failure_no_rollback (s : AppState)
    (userId content : String) (now : Nat) (nowIso : String)
    (fo : Except Unit (List ServerMessage)) (cid : String)
    (hc : s.activeChat = some cid) (hne : cid ≠ "") :
    (V2.handleSendMessage s userId content now nowIso (Except.error ()) fo).1.messages =
      s.messages ++ [{ id := "temp-" ++ toString now, content := content,
                       role := Role.user, timestamp := nowIso, isBot := false }] ∧
    (V2.handleSendMessage s userId content now nowIso (Except.error ()) fo).2 =
      [Ev.appendMessage { id := "temp-" ++ toString now, content := content,
                          role := Role.user, timestamp := nowIso, isBot := false },
       Ev.request (Req.webhook cid content userId),
       Ev.toast "Failed to send message"] := by
  constructor <;> simp [V2.handleSendMessage, hc, hne]

/-- Witness for claim C3 at a concrete active chat: after the failed send
the optimistic user message is still the last entry of the messages list. -/
theorem handleSendMessage_failure_no_rollback_witness :
    (V2.handleSendMessage ⟨some "c1", [], []⟩ "u1" "hello" 5 "t1" (Except.error ())
        (Except.ok [])).1.messages =
      [] ++ [{ id := "temp-" ++ toString 5, content := "hello",
               role := Role.user, timestamp := "t1", isBot := false }] :=
  (handleSendMessage_failure_no_rollback ⟨some "c1", [], []⟩ "u1" "hello" 5 "t1"
      (Except.ok []) "c1" rfl (by decide)).1

/-- Claim C4: after every successful fetchMessages the local messages list
is the element-wise image of the server rows under mapServerMessage — same
length, and the entry at every index is the image of the server row at that
index, so nothing is reordered, dropped, inserted or duplicated. -/
theorem fetchMessages_success_elementwise (s : AppState) (chatId : String)
    (data : List ServerMessage) :
    (V2.fetchMessages s chatId (Except.ok data)).1.messages.length = data.length ∧
    ∀ i : Nat, (V2.fetchMessages s chatId (Except.ok data)).1.messages[i]? =
      (data[i]?).map mapServerMessage := by
  constructor
  · simp [V2.fetchMessages]
  · intro i
    simp [V2.fetchMessages, List.getElem?_map]

/-- Claim C5: every invocation of sendMessage issues exactly one HTTP
request; it returns the parsed JSON body exactly when that single fetch
resolved with an ok response, and in every other case it throws the webhook
error without issuing any further request. -/
theorem sendMessage_single_request (J : Type) (p : SendMessageParams)
    (outcome : FetchOutcome J) :
    (sendMessage J p outcome).1 = [p] ∧
    ((∃ b : J, (sendMessage J p outcome).2 = Except.ok b) ↔
      (∃ (stat : Nat) (b : J), outcome = FetchOutcome.response true stat b)) ∧
    (∀ (stat : Nat) (b : J), outcome = FetchOutcome.response true stat b →
      (sendMessage J p outcome).2 = Except.ok b) ∧
    ((∀ (stat : Nat) (b : J), outcome ≠ FetchOutcome.response true stat b) →
      (sendMessage J p outcome).2 = Except.error "Failed to call n8n webhook") := by
  rcases outcome with _ | ⟨ok, status, body⟩
  · simp [sendMessage]
  · cases ok <;> simp [sendMessage]

/-- Witness for claim C5 at a concrete ok response: the single request is
recorded and the body is returned. -/
theorem sendMessage_single_request_witness :
    (sendMessage Nat ⟨"c1", "hi", "u1"⟩ (FetchOutcome.response true 200 7)).1 =
      [⟨"c1", "hi", "u1"⟩] ∧
    (sendMessage Nat ⟨"c1", "hi", "u1"⟩ (FetchOutcome.response true 200 7)).2 =
      Except.ok 7 :=
  ⟨(sendMessage_single_request Nat ⟨"c1", "hi", "u1"⟩
      (FetchOutcome.response true 200 7)).1,
   (sendMessage_single_request Nat ⟨"c1", "hi", "u1"⟩
      (FetchOutcome.response true 200 7)).2.2.1 200 7 rfl⟩

/-- Claim C6: filteredChats keeps exactly those chats whose lowercased title
contains the lowercased search term as a contiguous substring, preserves
their relative order (it is a sublist of chats), and is all of chats when
the search term is empty. -/
theorem filteredChats_substring_filter (chats : List Chat) (searchTerm : String) :
    (∀ c : Chat, c ∈ V2.filteredChats chats searchTerm ↔
       (c ∈ chats ∧ jsToLower searchTerm <:+: jsToLower c.title)) ∧
    (V2.filteredChats chats searchTerm).Sublist chats ∧
    (searchTerm = "" → V2.filteredChats chats searchTerm = chats) := by
  refine ⟨?_, ?_, ?_⟩
  · intro c
    simp [V2.filteredChats, List.mem_filter]
  · exact List.filter_sublist chats
  · intro h
    subst h
    apply List.filter_eq_self.mpr
    intro c hc
    simp [jsToLower, List.nil_infix]

/-- Witness for claim C6 at a concrete list and the empty search term: the
filter returns the chats unchanged. -/
theorem filteredChats_substring_filter_witness :
    V2.filteredChats [⟨"a", "Alpha", none, "d"⟩] "" = [⟨"a", "Alpha", none, "d"⟩] :=
  (filteredChats_substring_filter [⟨"a", "Alpha", none, "d"⟩] "").2.2 rfl

/-- Claim C7 counterexample: the second ChatApp version exposes the
state-changing operation handleDeleteChat (and likewise handleRenameChat)
that the first version lacks, so it is false that no version exposes
state-changing operations the other lacks. -/
theorem chatApp_versions_extra_ops_counterexample :
    "handleDeleteChat" ∈ V2.stateChangingOps ∧
    "handleDeleteChat" ∉ V1.stateChangingOps := by
  decide

/-- Claim C7 (amended): for every operation available in both ChatApp
versions — fetch chats, fetch messages, create chat, select chat, send
message, and the derived search filter — the two versions' state
transformations are definitionally equal; the second version additionally
exposes delete and rename operations the first lacks. -/
theorem chatApp_versions_shared_ops_agree :
    V1.fetchChats = V2.fetchChats ∧ V1.fetchMessages = V2.fetchMessages ∧
    V1.handleNewChat = V2.handleNewChat ∧ V1.handleChatSelect = V2.handleChatSelect ∧
    V1.handleSendMessage = V2.handleSendMessage ∧ V1.filteredChats = V2.filteredChats :=
  ⟨rfl, rfl, rfl, rfl, rfl, rfl⟩

/-- Claim C8: every message produced by a successful fetchMessages satisfies
isBot = true exactly when its role is bot; at every index both hold exactly
when the server row's role was assistant, and a server role of user yields
role user with isBot false. -/
theorem fetchMessages_role_isBot_invariant (s : AppState) (chatId : String)
    (data : List ServerMessage) :
    (∀ m ∈ (V2.fetchMessages s chatId (Except.ok data)).1.messages,
        (m.isBot = true ↔ m.role = Role.bot)) ∧
    (∀ (i : Nat) (sm : ServerMessage), data[i]? = some sm →
        ∃ m : Message,
          (V2.fetchMessages s chatId (Except.ok data)).1.messages[i]? = some m ∧
          (m.isBot = true ↔ m.role = Role.bot) ∧
          (m.role = Role.bot ↔ sm.role = ServerRole.assistant) ∧
          (m.isBot = true ↔ sm.role = ServerRole.assistant) ∧
          (sm.role = ServerRole.user → m.role = Role.user ∧ m.isBot = false)) := by
  constructor
  · intro m hm
    simp only [V2.fetchMessages, List.mem_map] at hm
    obtain ⟨sm, _, rfl⟩ := hm
    cases h : sm.role <;> simp [mapServerMessage, h]
  · intro i sm h
    refine ⟨mapServerMessage sm, ?_, ?_, ?_, ?_, ?_⟩
    · simp [V2.fetchMessages, List.getElem?_map, h]
    all_goals cases hr : sm.role <;> simp [mapServerMessage, hr]

/-- Witness for claim C8 at a concrete assistant row: the produced message
exists, has role bot and isBot true, and both track the server role. -/
theorem fetchMessages_role_isBot_invariant_witness :
    ∃ m : Message,
      (V2.fetchMessages ⟨none, [], []⟩ "c"
          (Except.ok [⟨"m1", "hi", ServerRole.assistant, "t"⟩])).1.messages[0]? =
        some m ∧
      (m.isBot = true ↔ m.role = Role.bot) ∧
      (m.role = Role.bot ↔
        (⟨"m1", "hi", ServerRole.assistant, "t"⟩ : ServerMessage).role = ServerRole.assistant) ∧
      (m.isBot = true ↔
        (⟨"m1", "hi", ServerRole.assistant, "t"⟩ : ServerMessage).role = ServerRole.assistant) ∧
      ((⟨"m1", "hi", ServerRole.assistant, "t"⟩ : ServerMessage).role = ServerRole.user →
        m.role = Role.user ∧ m.isBot = false) :=
  (fetchMessages_role_isBot_invariant ⟨none, [], []⟩ "c"
      [⟨"m1", "hi", ServerRole.assistant, "t"⟩]).2 0
    ⟨"m1", "hi", ServerRole.assistant, "t"⟩ rfl

/-- Claim C9 counterexample: deleting the active chat "a" while the first
remaining chat has the empty string as id leaves chats non-empty yet sets
activeChat to null, because the code computes updatedChats[0]?.id || null
and JavaScript treats the empty string as falsy; the claim instead demands
activeChat become the id of the first remaining chat. -/
theorem handleDeleteChat_empty_id_counterexample :
    ((V2.handleDeleteChat ⟨some "a", [⟨"a", "A", none, "d1"⟩, ⟨"", "B", none, "d2"⟩], []⟩
        "a" true (Except.ok ())).1.chats ≠ []) ∧
    (V2.handleDeleteChat ⟨some "a", [⟨"a", "A", none, "d1"⟩, ⟨"", "B", none, "d2"⟩], []⟩
        "a" true (Except.ok ())).1.activeChat = none := by
  decide

/-- Claim C9 (amended): when no chat has the requested id, handleDeleteChat
returns with no request issued and no state change; when the chat is found,
the dialog is confirmed and the request succeeds, exactly the chats with
that id are removed — the survivors keep content and relative order and the
messages list is untouched — and, if the deleted chat was active, activeChat
becomes the id of the first remaining chat, or null when no chats remain or
when that id is the empty string; a non-active deletion leaves activeChat
unchanged. -/
theorem handleDeleteChat_frame_spec (s : AppState) (chatId : String)
    (confirmed : Bool) (outcome : Except Unit Unit) :
    ((∀ c ∈ s.chats, c.id ≠ chatId) →
       V2.handleDeleteChat s chatId confirmed outcome = (s, [])) ∧
    (∀ ch : Chat, s.chats.find? (fun c => c.id == chatId) = some ch →
       ((V2.handleDeleteChat s chatId true (Except.ok ())).1.chats.Sublist s.chats ∧
        (∀ c ∈ s.chats, c.id ≠ chatId →
           c ∈ (V2.handleDeleteChat s chatId true (Except.ok ())).1.chats) ∧
        (∀ c ∈ (V2.handleDeleteChat s chatId true (Except.ok ())).1.chats, c.id ≠ chatId) ∧
        ((V2.handleDeleteChat s chatId true (Except.ok ())).1.messages = s.messages) ∧
        (s.activeChat ≠ some chatId →
           (V2.handleDeleteChat s chatId true (Except.ok ())).1.activeChat = s.activeChat) ∧
        (s.activeChat = some chatId →
           ((V2.handleDeleteChat s chatId true (Except.ok ())).1.chats = [] →
              (V2.handleDeleteChat s chatId true (Except.ok ())).1.activeChat = none) ∧
           (∀ (c0 : Chat) (rest : List Chat),
              (V2.handleDeleteChat s chatId true (Except.ok ())).1.chats = c0 :: rest →
              (V2.handleDeleteChat s chatId true (Except.ok ())).1.activeChat =
                (if c0.id = "" then none else some c0.id))))) := by
  constructor
  · intro h
    have hnone : s.chats.find? (fun c => c.id == chatId) = none := by
      apply List.find?_eq_none.mpr
      intro c hc
      simp [h c hc]
    simp [V2.handleDeleteChat, hnone]
  · intro ch hfind
    have hchats := deleteChat_ok_chats s chatId ch hfind
    refine ⟨?_, ?_, ?_, ?_, ?_, ?_⟩
    · rw [hchats]
      exact List.filter_sublist s.chats
    · intro c hc hne
      rw [hchats]
      exact List.mem_filter.mpr ⟨hc, by simp [hne]⟩
    · intro c hc
      rw [hchats] at hc
      have := (List.mem_filter.mp hc).2
      simpa using this
    · simp [V2.handleDeleteChat, hfind]
    · intro hne
      simp [V2.handleDeleteChat, hfind, hne]
    · intro ha
      constructor
      · intro hnil
        rw [hchats] at hnil
        simp [V2.handleDeleteChat, hfind, ha, hnil, jsOrNull]
      · intro c0 rest hcons
        rw [hchats] at hcons
        simp [V2.handleDeleteChat, hfind, ha, hcons, jsOrNull]

/-- Witness for claim C9: deleting the only — and active — chat empties the
list and clears activeChat. -/
theorem handleDeleteChat_frame_spec_witness :
    (V2.handleDeleteChat ⟨some "a", [⟨"a", "A", none, "d"⟩], []⟩ "a" true
        (Except.ok ())).1.activeChat = none :=
  (((handleDeleteChat_frame_spec ⟨some "a", [⟨"a", "A", none, "d"⟩], []⟩ "a" true
        (Except.ok ())).2 ⟨"a", "A", none, "d"⟩ rfl).2.2.2.2.2 rfl).1 rfl

/-- Claim C10: handleSendMessage returns immediately, with no state change
and no webhook request, whenever activeChat is null; ChatView's submit
handler sends nothing when the trimmed input is empty, a send is in flight,
or chatId is null; and whenever it does send, the payload is the trimmed
input. -/
theorem no_send_without_active_chat_or_blank_input (s : AppState)
    (userId content : String) (now : Nat) (nowIso : String)
    (so : Except Unit Unit) (fo : Except Unit (List ServerMessage))
    (st : ChatView.SubmitState) (chatId : Option String) :
    (s.activeChat = none →
       V2.handleSendMessage s userId content now nowIso so fo = (s, [])) ∧
    ((jsTrim st.inputValue = "" ∨ st.isLoading = true ∨ chatId = none) →
       (ChatView.handleSubmit st chatId).2 = none) ∧
    (∀ m : String, (ChatView.handleSubmit st chatId).2 = some m →
       m = jsTrim st.inputValue) := by
  refine ⟨?_, ?_, ?_⟩
  · intro h
    simp [V2.handleSendMessage, h]
  · intro h
    unfold ChatView.handleSubmit
    rcases h with h | h | h <;> simp [h, falsyOptStr]
  · intro m h
    unfold ChatView.handleSubmit at h
    split at h
    · simp at h
    · simp at h
      exact h.symm

/-- Witness for claim C10: a whitespace-only input sends nothing even with a
chat selected and no send in flight. -/
theorem no_send_without_active_chat_or_blank_input_witness :
    (ChatView.handleSubmit ⟨" ", false⟩ (some "c1")).2 = none :=
  (no_send_without_active_chat_or_blank_input ⟨none, [], []⟩ "u" "x" 0 "t"
      (Except.error ()) (Except.ok []) ⟨" ", false⟩ (some "c1")).2.1 (Or.inl rfl)
